import Mathlib

/-
Shallow embedding of src/USBD_User_CDC_ACM_UART_0.c
(IoT-Systems-Advanced-23-24/opdracht3): the UART -> USB stream-bridge
counters with their periodic drain thread, the AT command interpreter
driven by the USB data-received callback, and the CDC line-coding
callbacks.  Machine integers int32_t are modelled as Int (the program
never approaches the 32-bit range in the modelled scenarios); the
bit-mask (uint32_t)x & (UART_BUFFER_SIZE - 1) on a two's-complement
int32_t equals Int.emod x UART_BUFFER_SIZE because UART_BUFFER_SIZE
divides 2^32.
-/

-- ---------------------------------------------------------------------------
-- Stream bridge (UART -> USB direction): uart_rx_cnt / usb_tx_cnt counters.
-- ---------------------------------------------------------------------------

def UART_BUFFER_SIZE : Int := 512

/-- The two shared counters of the bridge: static volatile int32_t
uart_rx_cnt and usb_tx_cnt, both initialised to 0. -/
structure BridgeState where
  uart_rx_cnt : Int
  usb_tx_cnt : Int
deriving DecidableEq

def initBridge : BridgeState := ⟨0, 0⟩

/-- UART_Callback, ARM_USART_EVENT_RECEIVE_COMPLETE branch:
uart_rx_cnt += UART_BUFFER_SIZE (the re-arm of Receive has no effect on
the modelled counters). -/
def UART_Callback_receive_complete (s : BridgeState) : BridgeState :=
  { s with uart_rx_cnt := s.uart_rx_cnt + UART_BUFFER_SIZE }

/-- Result of one iteration of the loop body of
CDC0_ACM_UART_to_USB_Thread: the new counter state together with the
(offset, length) argument pair of the USBD_CDC_ACM_WriteData call, when
one was issued. -/
structure TickResult where
  state : BridgeState
  request : Option (Int × Int)
deriving DecidableEq

/-- One iteration of the loop body of CDC0_ACM_UART_to_USB_Thread, for a
tick on which GetStatus().rx_busy was nonzero.  `r` models the value
returned by ptrUART->GetRxCount() and `w` the value returned by
USBD_CDC_ACM_WriteData for the issued request (the driver contract
returns at most the requested length; w enters the state only through
the cnt > 0 guard, exactly as in the source). -/
def drainTickFull (r w : Int) (s : BridgeState) : TickResult :=
  let cnt := s.uart_rx_cnt + r - s.usb_tx_cnt
  if cnt ≥ UART_BUFFER_SIZE then
    -- Dump data received on UART if USB is not consuming fast enough;
    -- cnt is then set to 0, so the subsequent cnt > 0 block is skipped.
    { state := { s with usb_tx_cnt := s.usb_tx_cnt + cnt }, request := none }
  else if cnt > 0 then
    let off := Int.emod s.usb_tx_cnt UART_BUFFER_SIZE
    let cnt_to_wrap := UART_BUFFER_SIZE - off
    let cnt2 := if cnt > cnt_to_wrap then cnt_to_wrap else cnt
    { state := if w > 0 then { s with usb_tx_cnt := s.usb_tx_cnt + w } else s,
      request := some (off, cnt2) }
  else
    { state := s, request := none }

def drainTick (r w : Int) (s : BridgeState) : BridgeState :=
  (drainTickFull r w s).state

/-- The unread span of the counters (received minus forwarded). -/
def span (s : BridgeState) : Int := s.uart_rx_cnt - s.usb_tx_cnt

/-- Length of the WriteData request a tick would issue (0 when no request
is issued); independent of the driver's return value. -/
def requestLen (r : Int) (s : BridgeState) : Int :=
  match (drainTickFull r 0 s).request with
  | some p => p.2
  | none => 0

/-- The two operations of the producer/drain interleaving: a UART
receive completion, or one drain-thread tick with in-flight receive
count r and WriteData return value w. -/
inductive BridgeOp where
  | produce : BridgeOp
  | tick : Int → Int → BridgeOp
deriving DecidableEq

def stepOp : BridgeOp → BridgeState → BridgeState
  | .produce, s => UART_Callback_receive_complete s
  | .tick r w, s => drainTick r w s

def runOps (ops : List BridgeOp) : BridgeState :=
  ops.foldl (fun s op => stepOp op s) initBridge

/-- An operation whose environment inputs respect the driver contracts:
a tick sees a zero in-flight receive count and WriteData never accepts
more than the requested length. -/
def validOp (s : BridgeState) : BridgeOp → Bool
  | .produce => true
  | .tick r w => r == 0 && decide (w ≤ requestLen r s)

def validTrace : BridgeState → List BridgeOp → Bool
  | _, [] => true
  | s, op :: ops => validOp s op && validTrace (stepOp op s) ops

-- ---------------------------------------------------------------------------
-- Command accumulator (USBD_CDC0_ACM_DataReceived): cmd_buffer bookkeeping.
-- ---------------------------------------------------------------------------

def CMD_BUFFER_SIZE : Nat := 64

/-- Observable effect of the byte loop of USBD_CDC0_ACM_DataReceived on
cmd_buffer: the cursor cmd_buffer_cnt, the trace of every store
cmd_buffer[i] = c it performs, and how many times process_AT_command was
dispatched. -/
structure CmdAcc where
  cmd_buffer_cnt : Nat
  writes : List (Nat × Char)
  dispatched : Nat
deriving DecidableEq

/-- One iteration of the byte loop of USBD_CDC0_ACM_DataReceived: on a
carriage return it stores a NUL at the cursor, dispatches, and resets
the cursor; otherwise it stores the byte and advances the cursor.  The
source performs the store cmd_buffer[cmd_buffer_cnt++] unconditionally,
with no bound check against CMD_BUFFER_SIZE. -/
def dataReceivedStep (acc : CmdAcc) (c : Char) : CmdAcc :=
  if c == '\r' then
    { cmd_buffer_cnt := 0,
      writes := acc.writes ++ [(acc.cmd_buffer_cnt, Char.ofNat 0)],
      dispatched := acc.dispatched + 1 }
  else
    { cmd_buffer_cnt := acc.cmd_buffer_cnt + 1,
      writes := acc.writes ++ [(acc.cmd_buffer_cnt, c)],
      dispatched := acc.dispatched }

def dataReceivedRun (cs : List Char) (acc : CmdAcc) : CmdAcc :=
  cs.foldl dataReceivedStep acc

-- ---------------------------------------------------------------------------
-- C library helpers used by process_AT_command.
-- ---------------------------------------------------------------------------

/-- strncmp(a, b, n) == 0, for NUL-terminated strings modelled as the
character lists before their terminators (no interior NUL). -/
def strncmpEq : List Char → List Char → Nat → Bool
  | _, _, 0 => true
  | [], [], _ + 1 => true
  | [], _ :: _, _ + 1 => false
  | _ :: _, [], _ + 1 => false
  | x :: xs, y :: ys, n + 1 => x == y && strncmpEq xs ys n

def isSpaceC (c : Char) : Bool :=
  c == ' ' || c == '\t' || c == '\n' || c == '\x0b' || c == '\x0c' || c == '\r'

def atoiDigits : List Char → Int → Int
  | [], acc => acc
  | c :: cs, acc =>
    if 48 ≤ c.toNat ∧ c.toNat ≤ 57 then
      atoiDigits cs (acc * 10 + ((c.toNat : Int) - 48))
    else acc

/-- C atoi: skip whitespace, optional sign, leading decimal digits. -/
def atoi (s : List Char) : Int :=
  let t := s.dropWhile isSpaceC
  match t with
  | '-' :: rest => - atoiDigits rest 0
  | '+' :: rest => atoiDigits rest 0
  | _ => atoiDigits t 0

/-- intToBinaryString(num, buf, size): buf[i] = (num & 1) + '0' for i
from size-1 down to 0, shifting num right each step; returns the size
characters buf[0..size-1] (the NUL stored at buf[size] is appended by
the caller model).  On the only reachable path 1 <= num <= 8, where
Int.emod/Int.ediv agree with the C bit operations. -/
def intToBinaryStringAux : Nat → Int → List Char → List Char
  | 0, _, acc => acc
  | k + 1, num, acc =>
    intToBinaryStringAux k (Int.ediv num 2)
      ((if Int.emod num 2 == 1 then '1' else '0') :: acc)

def intToBinaryString (num : Int) (size : Nat) : List Char :=
  intToBinaryStringAux size num []

/-- storeLCDString: strncpy into char storedLCDString[50] with count 49
and forced NUL at index 49; as a C string the stored content is the
first 49 characters of the source. -/
def storeLCDString (s : List Char) : List Char := s.take 49

/-- snprintf truncation to UART_BUFFER_SIZE - 1 = 511 characters plus
terminator. -/
def snprintfBuf (s : List Char) : List Char := s.take 511

-- ---------------------------------------------------------------------------
-- process_AT_command and its device state.
-- ---------------------------------------------------------------------------

/-- The byte the LED loop reads at index i of char binaryString[5]:
in-bounds characters for i < 5, and otherwise whatever byte happens to
lie after the array (an out-of-bounds read in the source, modelled as an
arbitrary environment function). -/
def binChar (bs : List Char) (oob : Nat → Char) (i : Nat) : Char :=
  bs.getD i (oob i)

/-- HAL_GPIO_WritePin on output line i (1..8): pointwise update of the
output-state function. -/
def ledWrite (i : Nat) (b : Bool) (leds : Nat → Bool) : Nat → Bool :=
  fun j => if j = i then b else leds j

/-- The for-loop of the AT+LED handler: for i = 0..7, set output i+1
when the character read at binaryString[i] is '1', else reset it. -/
def ledLoop (bs : List Char) (oob : Nat → Char) (leds : Nat → Bool) : Nat → Bool :=
  (List.range 8).foldl (fun L i => ledWrite (i + 1) (binChar bs oob i == '1') L) leds

/-- The button-state reply chain of the AT+BUTTON handler; an argument
is true when the matching switch reads GPIO_PIN_RESET (pressed). -/
def buttonMsg (p1 p2 p3 p4 : Bool) : String :=
  if p1 && p2 && p3 && p4 then "All buttons are pressed\r\n"
  else if p1 && p2 && p3 then "Button 1, Button 2 and Button 3 are pressed\r\n"
  else if p1 && p2 && p4 then "Button 1, Button 2 and Button 4 are pressed\r\n"
  else if p1 && p3 && p4 then "Button 1, Button 3 and Button 4 are pressed\r\n"
  else if p2 && p3 && p4 then "Button 2, Button 3 and Button 4 are pressed\r\n"
  else if p1 && p2 then "Button 1 and Button 2 are pressed\r\n"
  else if p1 && p3 then "Button 1 and Button 3 are pressed\r\n"
  else if p1 && p4 then "Button 1 and Button 4 are pressed\r\n"
  else if p2 && p3 then "Button 2 and Button 3 are pressed\r\n"
  else if p2 && p4 then "Button 2 and Button 4 are pressed\r\n"
  else if p3 && p4 then "Button 3 and Button 4 are pressed\r\n"
  else if p1 then "Button 1 is pressed\r\n"
  else if p2 then "Button 2 is pressed\r\n"
  else if p3 then "Button 3 is pressed\r\n"
  else if p4 then "Button 4 is pressed\r\n"
  else "No button is pressed\r\n"

/-- Environment read by process_AT_command: the four switch inputs
(true = GPIO_PIN_RESET, pressed), the potentiometer value delivered by
ReadPot, and the bytes the LED loop reads past the end of
binaryString[5]. -/
structure CmdEnv where
  sw1 : Bool
  sw2 : Bool
  sw3 : Bool
  sw4 : Bool
  pot : Int
  oob : Nat → Char

/-- Device state touched by process_AT_command: the eight digital
outputs, storedLCDString, the uart_tx_buf contents after the last
snprintf, and the list of buffers handed to ptrUART->Send. -/
structure DevState where
  leds : Nat → Bool
  storedLCDString : List Char
  uartTxBuf : List Char
  uartSends : List (List Char)

/-- process_AT_command: ordered prefix dispatch over the NUL-terminated
line (modelled as its characters before the NUL).  The AT+LED and
AT+LCD branches only format uart_tx_buf; the AT+BUTTON and AT+POT
branches also hand the formatted buffer to ptrUART->Send.  An unmatched
line falls through with no effect. -/
def process_AT_command (env : CmdEnv) (line : List Char) (s : DevState) : DevState :=
  if strncmpEq line ("AT+LED".toList) 6 then
    let led_value := atoi (line.drop 6)
    let s1 :=
      if 1 ≤ led_value ∧ led_value ≤ 8 then
        { s with leds := ledLoop (intToBinaryString led_value 4 ++ [Char.ofNat 0]) env.oob s.leds }
      else s
    { s1 with uartTxBuf := snprintfBuf (("LED value set to: " ++ toString led_value ++ "\r\n").toList) }
  else if strncmpEq line ("AT+LCD=".toList) 6 then
    -- the source compares only 6 characters and takes the argument at
    -- offset 6, so the '=' is part of the extracted string
    let lcdString := line.drop 6
    { s with storedLCDString := storeLCDString lcdString,
             uartTxBuf := snprintfBuf (("LCD string set to: ").toList ++ lcdString ++ ("\r\n").toList) }
  else if strncmpEq line ("AT+BUTTON".toList) 9 then
    let msg := snprintfBuf ((buttonMsg env.sw1 env.sw2 env.sw3 env.sw4).toList)
    { s with uartTxBuf := msg, uartSends := s.uartSends ++ [msg] }
  else if strncmpEq line ("AT+POT".toList) 6 then
    let msg := snprintfBuf (("Potentiometer value: " ++ toString env.pot ++ "\r\n").toList)
    { s with uartTxBuf := msg, uartSends := s.uartSends ++ [msg] }
  else s

-- ---------------------------------------------------------------------------
-- CDC line-coding callbacks.
-- ---------------------------------------------------------------------------

structure CDC_LINE_CODING where
  dwDTERate : Nat
  bCharFormat : Nat
  bParityType : Nat
  bDataBits : Nat
deriving DecidableEq

def zeroLineCoding : CDC_LINE_CODING := ⟨0, 0, 0, 0⟩

/-- The module-level state the line-coding callbacks touch:
cdc_acm_line_coding, the two bridge counters, and whether the bridge
thread handle cdc_acm_bridge_tid is still set. -/
structure ACMState where
  cdc_acm_line_coding : CDC_LINE_CODING
  uart_rx_cnt : Int
  usb_tx_cnt : Int
  bridge_tid_set : Bool
deriving DecidableEq

def initACM : ACMState := ⟨zeroLineCoding, 0, 0, true⟩

/-- USBD_CDC0_ACM_SetLineCoding: the three switches accept bCharFormat
0..2, bParityType 0..2 and bDataBits 5..8 (default: return false), then
the mode Control call must return ARM_DRIVER_OK (modelled as
ctrl_status = 0; otherwise return false); only then are the record and
the two counters updated and true returned.  The driver flag values the
switches select and the abort/enable Control calls do not touch the
modelled state. -/
def USBD_CDC0_ACM_SetLineCoding (ctrl_status : Int) (lc : CDC_LINE_CODING) (s : ACMState) :
    Bool × ACMState :=
  if lc.bCharFormat ≤ 2 then
    if lc.bParityType ≤ 2 then
      if 5 ≤ lc.bDataBits ∧ lc.bDataBits ≤ 8 then
        if ctrl_status = 0 then
          (true, { s with cdc_acm_line_coding := lc, uart_rx_cnt := 0, usb_tx_cnt := 0 })
        else (false, s)
      else (false, s)
    else (false, s)
  else (false, s)

/-- Models USBD_CDC0_ACM_Uninitialize: it terminates the bridge thread
(clearing cdc_acm_bridge_tid when osThreadTerminate returns osOK,
modelled by term_ok) and issues abort/power-off/uninit driver calls;
none of its statements touch cdc_acm_line_coding or the counters. -/
def USBD_CDC0_ACM_Uninit (term_ok : Bool) (s : ACMState) : ACMState :=
  { s with bridge_tid_set := if term_ok then false else s.bridge_tid_set }

/-- A concrete device state used to instantiate universally quantified
statements. -/
def devSample : DevState := ⟨fun _ => false, [], [], []⟩

/-- A concrete environment used to instantiate universally quantified
statements. -/
def envSample : CmdEnv := ⟨false, false, false, false, 0, fun _ => Char.ofNat 0⟩

-- ---------------------------------------------------------------------------
-- Helper lemmas.
-- ---------------------------------------------------------------------------

/-- Immediately after a drain tick with zero in-flight receive count the
counter span is at most the buffer capacity, whatever WriteData
returned: the dump branch makes it 0, the forward branch can only keep
or shrink a span that was already below capacity, and an idle tick
leaves a non-positive span alone. -/
theorem span_tick_le (s : BridgeState) (w : Int) :
    span (drainTick 0 w s) ≤ UART_BUFFER_SIZE := by
  simp only [drainTick, drainTickFull, span, UART_BUFFER_SIZE] at *
  split_ifs <;> simp_all <;> omega

/-- A single valid operation preserves non-negativity of the span. -/
theorem span_nonneg_step (s : BridgeState) (op : BridgeOp) (h0 : 0 ≤ span s)
    (hv : validOp s op = true) : 0 ≤ span (stepOp op s) := by
  cases op with
  | produce =>
    simp only [stepOp, UART_Callback_receive_complete, span, UART_BUFFER_SIZE] at *
    omega
  | tick r w =>
    simp only [validOp, Bool.and_eq_true, beq_iff_eq, decide_eq_true_eq] at hv
    obtain ⟨hr, hw⟩ := hv
    subst hr
    simp only [stepOp, drainTick, drainTickFull, requestLen, span, UART_BUFFER_SIZE] at *
    split_ifs at * <;> simp_all <;> omega

/-- A valid trace started at a non-negative span keeps the span
non-negative. -/
theorem span_nonneg_run (ops : List BridgeOp) : ∀ s : BridgeState, 0 ≤ span s →
    validTrace s ops = true → 0 ≤ span (ops.foldl (fun s op => stepOp op s) s) := by
  induction ops with
  | nil => intro s h0 _; simpa using h0
  | cons op ops ih =>
    intro s h0 hv
    simp only [validTrace, Bool.and_eq_true] at hv
    exact ih (stepOp op s) (span_nonneg_step s op h0 hv.1) hv.2

/-- Dispatching the line AT+LCD=Hello: the first six characters match
the AT+LED comparison nowhere, the AT+LCD= comparison everywhere, so the
handler stores line+6, which still carries the equals sign. -/
theorem procLCD (env : CmdEnv) (s : DevState) :
    process_AT_command env ("AT+LCD=Hello".toList) s =
      { s with storedLCDString := ("=Hello").toList,
               uartTxBuf := ("LCD string set to: =Hello\r\n").toList } := by
  rfl

/-- Dispatching the line AT+LED4: atoi parses 4, which is in range, so
the output loop runs on binaryString = "0100" and the reply is
formatted. -/
theorem procLED4 (env : CmdEnv) (s : DevState) :
    process_AT_command env ("AT+LED4".toList) s =
      { s with leds := ledLoop ('0' :: '1' :: '0' :: '0' :: [Char.ofNat 0]) env.oob s.leds,
               uartTxBuf := ("LED value set to: 4\r\n").toList } := by
  rfl

/-- Dispatching the line AT+LED5: atoi parses 5, which is in range, so
the output loop runs on binaryString = "0101" and the reply is
formatted. -/
theorem procLED5 (env : CmdEnv) (s : DevState) :
    process_AT_command env ("AT+LED5".toList) s =
      { s with leds := ledLoop ('0' :: '1' :: '0' :: '1' :: [Char.ofNat 0]) env.oob s.leds,
               uartTxBuf := ("LED value set to: 5\r\n").toList } := by
  rfl

-- ---------------------------------------------------------------------------
-- Claim theorems.
-- ---------------------------------------------------------------------------

/-- C1 (counterexample): the claimed invariant
0 <= uart_rx_cnt - usb_tx_cnt <= UART_BUFFER_SIZE does not hold after
every operation: two consecutive UART receive completions from the
zeroed counters leave the span at 1024 > 512, because the overflow dump
lives only in the drain tick. -/
theorem c1_counterexample :
    runOps [BridgeOp.produce, BridgeOp.produce] = ⟨1024, 0⟩ ∧
    ¬ span (runOps [BridgeOp.produce, BridgeOp.produce]) ≤ UART_BUFFER_SIZE := by
  decide

/-- C1 (amended): starting from the zeroed counters, along every trace
of receive completions and drain ticks in which each tick observes a
zero in-flight receive count and WriteData never accepts more than
requested, the span uart_rx_cnt - usb_tx_cnt stays non-negative after
every operation, and immediately after any further drain tick the span
is at most UART_BUFFER_SIZE; the upper bound can be exceeded between a
receive completion and the next tick. -/
theorem c1_span_bounds (ops : List BridgeOp) (h : validTrace initBridge ops = true) :
    0 ≤ span (runOps ops) ∧
    ∀ w : Int, span (drainTick 0 w (runOps ops)) ≤ UART_BUFFER_SIZE := by
  refine ⟨?_, fun w => span_tick_le (runOps ops) w⟩
  have h0 := span_nonneg_run ops initBridge (by decide) h
  simpa [runOps] using h0

/-- C1 witness: the bounds of c1_span_bounds at the concrete one-step
trace consisting of a single receive completion. -/
theorem c1_span_bounds_witness :
    validTrace initBridge [BridgeOp.produce] = true ∧
    (0 ≤ span (runOps [BridgeOp.produce]) ∧
      span (drainTick 0 7 (runOps [BridgeOp.produce])) ≤ UART_BUFFER_SIZE) :=
  ⟨by decide, (c1_span_bounds [BridgeOp.produce] (by decide)).1,
    (c1_span_bounds [BridgeOp.produce] (by decide)).2 7⟩

/-- C2: when a drain tick finds the unread span (including the in-flight
receive count r) strictly above the capacity, it advances usb_tx_cnt all
the way to uart_rx_cnt + r, leaves uart_rx_cnt alone, issues no
WriteData request, and the span (including r) becomes exactly zero: the
whole backlog is dropped at once, never a part of it. -/
theorem c2_overflow_dump (s : BridgeState) (r w : Int)
    (h : s.uart_rx_cnt + r - s.usb_tx_cnt > UART_BUFFER_SIZE) :
    (drainTickFull r w s).state.usb_tx_cnt = s.uart_rx_cnt + r ∧
    (drainTickFull r w s).state.uart_rx_cnt = s.uart_rx_cnt ∧
    (drainTickFull r w s).request = none ∧
    s.uart_rx_cnt + r - (drainTickFull r w s).state.usb_tx_cnt = 0 := by
  simp only [drainTickFull, UART_BUFFER_SIZE] at *
  split_ifs <;> simp_all <;> omega

/-- C2 witness: c2_overflow_dump at the concrete state
uart_rx_cnt = 1024, usb_tx_cnt = 0 with r = 0, w = 0. -/
theorem c2_overflow_dump_witness :
    ((1024 : Int) + 0 - 0 > UART_BUFFER_SIZE) ∧
    ((drainTickFull 0 0 ⟨1024, 0⟩).state.usb_tx_cnt = 1024 + 0 ∧
     (drainTickFull 0 0 ⟨1024, 0⟩).state.uart_rx_cnt = 1024 ∧
     (drainTickFull 0 0 ⟨1024, 0⟩).request = none ∧
     (1024 : Int) + 0 - (drainTickFull 0 0 ⟨1024, 0⟩).state.usb_tx_cnt = 0) :=
  ⟨by decide, c2_overflow_dump ⟨1024, 0⟩ 0 0 (by decide)⟩

/-- C3: evaluated at the failing input of sixty-four data bytes followed
by a carriage return, the byte loop of USBD_CDC0_ACM_DataReceived
performs a store at an index at least CMD_BUFFER_SIZE (the terminating
NUL lands at cmd_buffer[64], outside the 64-byte array, since the loop
has no bound check), while the dispatch still fires once. -/
theorem c3_oob_write_eval :
    ((dataReceivedRun (List.replicate 64 'A' ++ ['\r']) ⟨0, [], 0⟩).writes.any
      (fun p => decide (CMD_BUFFER_SIZE ≤ p.1)) = true) ∧
    (dataReceivedRun (List.replicate 64 'A' ++ ['\r']) ⟨0, [], 0⟩).dispatched = 1 := by
  decide

/-- C4: dispatching AT+LCD=Hello stores "=Hello", not "Hello", and
formats the reply "LCD string set to: =Hello" followed by CR LF: the
source compares only the first six characters of "AT+LCD=" and then
takes the argument at offset 6, so the equals sign stays in the
extracted string. -/
theorem c4_lcd_eval (env : CmdEnv) (s : DevState) :
    (process_AT_command env ("AT+LCD=Hello".toList) s).storedLCDString = ("=Hello").toList ∧
    (process_AT_command env ("AT+LCD=Hello".toList) s).uartTxBuf =
      ("LCD string set to: =Hello\r\n").toList ∧
    (process_AT_command env ("AT+LCD=Hello".toList) s).storedLCDString ≠ ("Hello").toList := by
  rw [procLCD env s]
  exact ⟨rfl, rfl, (by decide : ("=Hello").toList ≠ ("Hello").toList)⟩

/-- C5 (counterexample): a drain tick that finds the unread span exactly
equal to the capacity does not hand off a run: at uart_rx_cnt = 512,
usb_tx_cnt = 0, r = 0 the span is positive and not above capacity, yet
no WriteData request is issued and usb_tx_cnt jumps to 512 although the
consumer accepted nothing, because the dump branch triggers at
cnt >= UART_BUFFER_SIZE. -/
theorem c5_counterexample :
    (0 < (512 : Int) + 0 - 0 ∧ (512 : Int) + 0 - 0 ≤ UART_BUFFER_SIZE) ∧
    (drainTickFull 0 0 ⟨512, 0⟩).request = none ∧
    (drainTickFull 0 0 ⟨512, 0⟩).state.usb_tx_cnt = 512 := by
  decide

/-- C5 (amended): when a drain tick finds the unread span (including the
in-flight count r) strictly between zero and the capacity, it issues a
WriteData request starting at usb_tx_cnt mod capacity whose length is
the span clipped at the wrap boundary; a positive accepted count w
advances usb_tx_cnt by exactly w, a non-positive one leaves the state
unchanged, and uart_rx_cnt is never touched. -/
theorem c5_forward_no_wrap (s : BridgeState) (r w : Int)
    (h1 : 0 < s.uart_rx_cnt + r - s.usb_tx_cnt)
    (h2 : s.uart_rx_cnt + r - s.usb_tx_cnt < UART_BUFFER_SIZE) :
    (drainTickFull r w s).request =
      some (Int.emod s.usb_tx_cnt UART_BUFFER_SIZE,
        min (s.uart_rx_cnt + r - s.usb_tx_cnt)
          (UART_BUFFER_SIZE - Int.emod s.usb_tx_cnt UART_BUFFER_SIZE)) ∧
    (drainTickFull r w s).state.uart_rx_cnt = s.uart_rx_cnt ∧
    (0 < w → (drainTickFull r w s).state.usb_tx_cnt = s.usb_tx_cnt + w) ∧
    (w ≤ 0 → (drainTickFull r w s).state = s) := by
  simp only [drainTickFull, UART_BUFFER_SIZE] at *
  split_ifs <;> simp_all <;> omega

/-- C5 witness: c5_forward_no_wrap at the concrete state
uart_rx_cnt = 512, usb_tx_cnt = 12 with r = 0 and accepted count
w = 10. -/
theorem c5_forward_no_wrap_witness :
    ((drainTickFull 0 10 ⟨512, 12⟩).request =
      some (Int.emod 12 UART_BUFFER_SIZE,
        min ((512 : Int) + 0 - 12) (UART_BUFFER_SIZE - Int.emod 12 UART_BUFFER_SIZE))) ∧
    (drainTickFull 0 10 ⟨512, 12⟩).state.usb_tx_cnt = 12 + 10 :=
  ⟨(c5_forward_no_wrap ⟨512, 12⟩ 0 10 (by decide) (by decide)).1,
   (c5_forward_no_wrap ⟨512, 12⟩ 0 10 (by decide) (by decide)).2.2.1 (by decide)⟩

/-- C6: dispatching AT+LED5 encodes 5 as the four-bit pattern 0101, most
significant bit first, so outputs 1 and 3 are reset and outputs 2 and 4
are set, and the reply "LED value set to: 5" followed by CR LF is
formatted into the UART transmit buffer; this holds for every prior
device state and every environment. -/
theorem c6_led5_eval (env : CmdEnv) (s : DevState) :
    intToBinaryString 5 4 = ('0' :: '1' :: '0' :: '1' :: []) ∧
    (process_AT_command env ("AT+LED5".toList) s).leds 1 = false ∧
    (process_AT_command env ("AT+LED5".toList) s).leds 2 = true ∧
    (process_AT_command env ("AT+LED5".toList) s).leds 3 = false ∧
    (process_AT_command env ("AT+LED5".toList) s).leds 4 = true ∧
    (process_AT_command env ("AT+LED5".toList) s).uartTxBuf =
      ("LED value set to: 5\r\n").toList := by
  refine ⟨by decide, ?_, ?_, ?_, ?_, ?_⟩ <;>
    rw [procLED5 env s] <;>
    simp [ledLoop, ledWrite, binChar, List.range_succ]

/-- C7: a line matching none of the four command comparisons leaves the
whole device state untouched: no output write, no stored string change,
no transmit-buffer formatting and no Send call. -/
theorem c7_unmatched_no_effect (env : CmdEnv) (line : List Char) (s : DevState)
    (h1 : strncmpEq line ("AT+LED".toList) 6 = false)
    (h2 : strncmpEq line ("AT+LCD=".toList) 6 = false)
    (h3 : strncmpEq line ("AT+BUTTON".toList) 9 = false)
    (h4 : strncmpEq line ("AT+POT".toList) 6 = false) :
    process_AT_command env line s = s := by
  simp only [process_AT_command, h1, h2, h3, h4]
  simp

/-- C7 witness: the concrete line AT+FOO matches none of the four
comparisons and is dispatched without any effect. -/
theorem c7_unmatched_no_effect_witness :
    (strncmpEq ("AT+FOO".toList) ("AT+LED".toList) 6 = false ∧
     strncmpEq ("AT+FOO".toList) ("AT+LCD=".toList) 6 = false ∧
     strncmpEq ("AT+FOO".toList) ("AT+BUTTON".toList) 9 = false ∧
     strncmpEq ("AT+FOO".toList) ("AT+POT".toList) 6 = false) ∧
    process_AT_command envSample ("AT+FOO".toList) devSample = devSample :=
  ⟨⟨by decide, by decide, by decide, by decide⟩,
   c7_unmatched_no_effect envSample ("AT+FOO".toList) devSample
     (by decide) (by decide) (by decide) (by decide)⟩

/-- C8: dispatching AT+LED4 twice in a row yields the same final state
of the eight outputs as dispatching it once, from every starting state
and in every environment: the handler writes each of the eight outputs
with a value that does not depend on the previous output state. -/
theorem c8_led4_idempotent (env : CmdEnv) (s : DevState) (j : Nat) :
    (process_AT_command env ("AT+LED4".toList)
        (process_AT_command env ("AT+LED4".toList) s)).leds j =
    (process_AT_command env ("AT+LED4".toList) s).leds j := by
  rw [procLED4 env s, procLED4 env]
  simp only [ledLoop, binChar, List.range_succ, List.range_zero, List.foldl_append,
    List.foldl_cons, List.foldl_nil, ledWrite]
  split_ifs <;> rfl

/-- C9 (counterexample): after a successful SetLineCoding stored the
record 9600-0-0-8, USBD_CDC0_ACM_Uninitialize (modelled by
USBD_CDC0_ACM_Uninit) leaves cdc_acm_line_coding equal to that record,
which is not the zero record: the function never writes the line-coding
state. -/
theorem c9_counterexample :
    (USBD_CDC0_ACM_Uninit true
        (USBD_CDC0_ACM_SetLineCoding 0 ⟨9600, 0, 0, 8⟩ initACM).2).cdc_acm_line_coding =
      ⟨9600, 0, 0, 8⟩ ∧
    (⟨9600, 0, 0, 8⟩ : CDC_LINE_CODING) ≠ zeroLineCoding := by
  decide

/-- C9 (amended): bridge uninitialization preserves cdc_acm_line_coding
exactly; the record is zero only through its static initializer and is
replaced wholesale by each successful SetLineCoding, never reset by
USBD_CDC0_ACM_Uninitialize. -/
theorem c9_uninit_preserves_line_coding (term_ok : Bool) (s : ACMState) :
    (USBD_CDC0_ACM_Uninit term_ok s).cdc_acm_line_coding = s.cdc_acm_line_coding := rfl

/-- C10: USBD_CDC0_ACM_SetLineCoding either returns false and leaves the
stored record and both counters exactly as they were (unsupported
bCharFormat, bParityType or bDataBits, or a failed driver control call),
or returns true and installs the requested record with both counters
zeroed. -/
theorem c10_set_line_coding_paths (ctrl_status : Int) (lc : CDC_LINE_CODING) (s : ACMState) :
    ((USBD_CDC0_ACM_SetLineCoding ctrl_status lc s).1 = false ∧
     (USBD_CDC0_ACM_SetLineCoding ctrl_status lc s).2 = s) ∨
    ((USBD_CDC0_ACM_SetLineCoding ctrl_status lc s).1 = true ∧
     (USBD_CDC0_ACM_SetLineCoding ctrl_status lc s).2 =
       { s with cdc_acm_line_coding := lc, uart_rx_cnt := 0, usb_tx_cnt := 0 }) := by
  unfold USBD_CDC0_ACM_SetLineCoding
  split_ifs <;> simp
